import Mathlib

set_option maxRecDepth 4000000

/-!
Shallow embedding of `pyrsostf/plots/plot_utilities.py`.

Numeric arrays are modelled as `List Int` (vectors), `List (List Int)`
(matrices / image batches) and four-level nested lists (conv kernels).
Operations that can raise in numpy/matplotlib (out-of-range indexing,
reshape with the wrong size, 2-D indexing of a 1-D axes array, bar charts
with mismatched lengths, empty reductions) are modelled with
`Except String`.
-/

/-- `xs[i]` with a default, i.e. the value numpy indexing returns when the
index is in range. -/
def nth {α : Type} (xs : List α) (i : Nat) (d : α) : α :=
  (xs.get? i).getD d

/-- Checked indexing: numpy raises `IndexError` when the index is out of
bounds. -/
def npGet {α : Type} (xs : List α) (i : Nat) : Except String α :=
  match xs.get? i with
  | some v => Except.ok v
  | none => Except.error "index out of bounds"

/-- Effectful map over a list, stopping at the first error.  Used to model
loops whose body can raise. -/
def exceptMapM {α β : Type} (f : α → Except String β) : List α → Except String (List β)
  | [] => Except.ok []
  | a :: as =>
    match f a with
    | Except.error e => Except.error e
    | Except.ok b =>
      match exceptMapM f as with
      | Except.error e => Except.error e
      | Except.ok bs => Except.ok (b :: bs)

/-- The value of a successful `Except` computation, with a default for the
error case. -/
def exceptGetD {β : Type} (x : Except String β) (d : β) : β :=
  match x with
  | Except.ok b => b
  | Except.error _ => d

/-- numpy fancy indexing `xs[idxs]`: raises when any index is out of
bounds. -/
def npIndex {α : Type} (xs : List α) (idxs : List Nat) : Except String (List α) :=
  exceptMapM (npGet xs) idxs

/-- `xs.reshape((r, c))`: succeeds exactly when the flat length matches. -/
def np_reshape (r c : Nat) (xs : List Int) : Except String (List (List Int)) :=
  if xs.length = r * c then
    Except.ok ((List.range r).map (fun i => (xs.drop (c * i)).take c))
  else Except.error "cannot reshape array"

/-- `int(np.ceil(np.sqrt n))` on a natural number. -/
def ceil_sqrt (n : Nat) : Nat :=
  if Nat.sqrt n * Nat.sqrt n = n then Nat.sqrt n else Nat.sqrt n + 1

/-- `int(np.ceil(a / b))` on natural numbers. -/
def ceil_div (a b : Nat) : Nat := (a + b - 1) / b

/-- `np.where(labels != predictions)[0]` for two equal-length arrays: the
positions where they differ, in ascending order. -/
def wrong_idx (labels predictions : List Int) : List Nat :=
  (List.range labels.length).filter
    (fun i => nth labels i 0 != nth predictions i 0)

/-- `find_wrong_predictions_cifar(labels, predictions)`:
`wrong_indeces = np.where(labels != predictions)[0]` (the positions where
the two equal-length arrays differ, in ascending order), then
`wrong_labels = predictions[wrong_indeces]` and
`correct_labels = labels[wrong_indeces]`. -/
def find_wrong_predictions_cifar (labels predictions : List Int) :
    Except String (List Nat × List Int × List Int) :=
  if labels.length = predictions.length then
    let wrong_indeces := wrong_idx labels predictions
    match npIndex predictions wrong_indeces with
    | Except.error e => Except.error e
    | Except.ok wrong_labels =>
      match npIndex labels wrong_indeces with
      | Except.error e => Except.error e
      | Except.ok correct_labels =>
        Except.ok (wrong_indeces, wrong_labels, correct_labels)
  else Except.error "operands could not be broadcast together"

/-- `find_wrong_predictions(labels, predictions, images)`: same as the
cifar variant plus `wrong_images = images[wrong_indeces]`. -/
def find_wrong_predictions (labels predictions : List Int)
    (images : List (List Int)) :
    Except String (List Nat × List (List Int) × List Int × List Int) :=
  if labels.length = predictions.length then
    let wrong_indeces := wrong_idx labels predictions
    match npIndex images wrong_indeces with
    | Except.error e => Except.error e
    | Except.ok wrong_images =>
      match npIndex predictions wrong_indeces with
      | Except.error e => Except.error e
      | Except.ok wrong_labels =>
        match npIndex labels wrong_indeces with
        | Except.error e => Except.error e
        | Except.ok correct_labels =>
          Except.ok (wrong_indeces, wrong_images, wrong_labels, correct_labels)
  else Except.error "operands could not be broadcast together"

lemma npGet_of_lt {α : Type} (xs : List α) (d : α) (i : Nat) (h : i < xs.length) :
    npGet xs i = Except.ok (nth xs i d) := by
  simp [npGet, nth, List.getElem?_eq_getElem h]

lemma exceptMapM_ok_of {α β : Type} (f : α → Except String β) (g : α → β) (l : List α)
    (h : ∀ a ∈ l, f a = Except.ok (g a)) :
    exceptMapM f l = Except.ok (l.map g) := by
  induction l with
  | nil => rfl
  | cons a as ih =>
    have ha := h a (by simp)
    have has : ∀ x ∈ as, f x = Except.ok (g x) := fun x hx => h x (by simp [hx])
    simp [exceptMapM, ha, ih has]

lemma exceptMapM_length {α β : Type} (f : α → Except String β) (l : List α) (bs : List β)
    (h : exceptMapM f l = Except.ok bs) : bs.length = l.length := by
  induction l generalizing bs with
  | nil => simp [exceptMapM] at h; simp [← h]
  | cons a as ih =>
    simp only [exceptMapM] at h
    cases hfa : f a with
    | error e => rw [hfa] at h; exact absurd h (by simp)
    | ok b =>
      rw [hfa] at h
      cases hrest : exceptMapM f as with
      | error e => rw [hrest] at h; exact absurd h (by simp)
      | ok cs =>
        rw [hrest] at h
        cases h
        simp [ih cs hrest]

lemma exceptMapM_get {α β : Type} (f : α → Except String β) (l : List α) (bs : List β)
    (h : exceptMapM f l = Except.ok bs) (k : Nat) (hk : k < l.length) :
    ∃ a b, l.get? k = some a ∧ bs.get? k = some b ∧ f a = Except.ok b := by
  induction l generalizing bs k with
  | nil => exact absurd hk (by simp)
  | cons a as ih =>
    simp only [exceptMapM] at h
    cases hfa : f a with
    | error e => rw [hfa] at h; exact absurd h (by simp)
    | ok b =>
      rw [hfa] at h
      cases hrest : exceptMapM f as with
      | error e => rw [hrest] at h; exact absurd h (by simp)
      | ok cs =>
        rw [hrest] at h
        cases h
        cases k with
        | zero => exact ⟨a, b, rfl, rfl, hfa⟩
        | succ k =>
          obtain ⟨x, y, hx, hy, hxy⟩ := ih cs hrest k (by simpa using hk)
          exact ⟨x, y, hx, hy, hxy⟩

lemma exceptMapM_mem {α β : Type} (f : α → Except String β) (l : List α) (bs : List β)
    (h : exceptMapM f l = Except.ok bs) (b : β) (hb : b ∈ bs) :
    ∃ a ∈ l, f a = Except.ok b := by
  induction l generalizing bs with
  | nil => simp [exceptMapM] at h; subst h; exact absurd hb (by simp)
  | cons a as ih =>
    simp only [exceptMapM] at h
    cases hfa : f a with
    | error e => rw [hfa] at h; exact absurd h (by simp)
    | ok c =>
      rw [hfa] at h
      cases hrest : exceptMapM f as with
      | error e => rw [hrest] at h; exact absurd h (by simp)
      | ok cs =>
        rw [hrest] at h
        cases h
        rcases List.mem_cons.mp hb with hbc | hbcs
        · exact ⟨a, by simp, by rw [hfa, hbc]⟩
        · obtain ⟨x, hx, hfx⟩ := ih cs hrest hbcs
          exact ⟨x, by simp [hx], hfx⟩

lemma exceptMapM_ok_of_forall {α β : Type} (f : α → Except String β) (l : List α)
    (h : ∀ a ∈ l, ∃ b, f a = Except.ok b) :
    ∃ bs, exceptMapM f l = Except.ok bs := by
  induction l with
  | nil => exact ⟨[], rfl⟩
  | cons a as ih =>
    obtain ⟨b, hb⟩ := h a (by simp)
    obtain ⟨bs, hbs⟩ := ih (fun x hx => h x (by simp [hx]))
    exact ⟨b :: bs, by simp [exceptMapM, hb, hbs]⟩

lemma exceptMapM_eq_error {α β : Type} (f : α → Except String β) (l : List α)
    (k : Nat) (a : α) (e : String) (ha : l.get? k = some a) (he : f a = Except.error e)
    (hprev : ∀ j b, j < k → l.get? j = some b → ∃ c, f b = Except.ok c) :
    exceptMapM f l = Except.error e := by
  induction l generalizing k with
  | nil => exact absurd ha (by simp)
  | cons x xs ih =>
    cases k with
    | zero =>
      cases ha
      simp [exceptMapM, he]
    | succ k =>
      obtain ⟨c, hc⟩ := hprev 0 x (Nat.succ_pos k) rfl
      have htail : exceptMapM f xs = Except.error e := by
        refine ih k ha ?_
        intro j b hj hb
        exact hprev (j + 1) b (Nat.succ_lt_succ hj) hb
      simp [exceptMapM, hc, htail]

lemma mem_filter_range (n : Nat) (p : Nat → Bool) (i : Nat) :
    i ∈ (List.range n).filter p ↔ i < n ∧ p i := by
  simp [List.mem_filter, List.mem_range]

lemma sorted_filter_range (n : Nat) (p : Nat → Bool) :
    List.Sorted (· < ·) ((List.range n).filter p) :=
  List.Pairwise.sublist (List.filter_sublist _) (List.sorted_lt_range n)

lemma nth_map_of_lt {α β : Type} (f : α → β) (l : List α) (k : Nat) (d : β) (d0 : α)
    (hk : k < l.length) : nth (l.map f) k d = f (nth l k d0) := by
  simp [nth, List.getElem?_map, List.getElem?_eq_getElem hk]

lemma wrong_idx_mem (labels predictions : List Int) (i : Nat) :
    i ∈ wrong_idx labels predictions ↔
      i < labels.length ∧ nth labels i 0 ≠ nth predictions i 0 := by
  simp [wrong_idx, List.mem_filter, List.mem_range, bne_iff_ne]

lemma wrong_idx_sorted (labels predictions : List Int) :
    List.Sorted (· < ·) (wrong_idx labels predictions) :=
  sorted_filter_range _ _

lemma npIndex_wrong_idx {α : Type} (labels predictions : List Int) (xs : List α)
    (d : α) (hx : labels.length ≤ xs.length) :
    npIndex xs (wrong_idx labels predictions) =
      Except.ok ((wrong_idx labels predictions).map (fun i => nth xs i d)) :=
  exceptMapM_ok_of _ _ _ (fun i hi =>
    npGet_of_lt xs d i (Nat.lt_of_lt_of_le ((wrong_idx_mem _ _ _).mp hi).1 hx))

/-- C1: for equal-length label and prediction vectors the mismatch finders
return exactly the ascending indices where label and prediction differ,
with `wrong_labels`/`correct_labels` equal to the predictions/labels at
those indices; concretely `[0,1,2,1]` vs `[0,2,2,1]` gives indices `[1]`,
wrong labels `[2]`, correct labels `[1]`. -/
theorem C1_mismatch_finders_characterized :
    (∀ (labels predictions : List Int) (images : List (List Int)),
      labels.length = predictions.length →
      images.length = labels.length →
      ∃ (idxs : List Nat) (wl cl : List Int) (imgs : List (List Int)),
        find_wrong_predictions_cifar labels predictions = Except.ok (idxs, wl, cl) ∧
        find_wrong_predictions labels predictions images = Except.ok (idxs, imgs, wl, cl) ∧
        (∀ i, i ∈ idxs ↔ i < labels.length ∧ nth labels i 0 ≠ nth predictions i 0) ∧
        List.Sorted (· < ·) idxs ∧
        wl = idxs.map (fun i => nth predictions i 0) ∧
        cl = idxs.map (fun i => nth labels i 0)) ∧
    find_wrong_predictions_cifar [0, 1, 2, 1] [0, 2, 2, 1] = Except.ok ([1], [2], [1]) := by
  constructor
  · intro labels predictions images hlen hilen
    have hwl := npIndex_wrong_idx labels predictions predictions 0 (Nat.le_of_eq hlen)
    have hcl := npIndex_wrong_idx labels predictions labels 0 (Nat.le_refl _)
    have himg := npIndex_wrong_idx labels predictions images ([] : List Int)
      (Nat.le_of_eq hilen.symm)
    refine ⟨wrong_idx labels predictions,
      (wrong_idx labels predictions).map (fun i => nth predictions i 0),
      (wrong_idx labels predictions).map (fun i => nth labels i 0),
      (wrong_idx labels predictions).map (fun i => nth images i []),
      ?_, ?_, wrong_idx_mem labels predictions, wrong_idx_sorted labels predictions,
      rfl, rfl⟩
    · simp [find_wrong_predictions_cifar, hlen, hwl, hcl]
    · simp [find_wrong_predictions, hlen, hwl, hcl, himg]
  · rfl

/-- C1 witness: the general part of C1 instantiated at the concrete
vectors of the claim. -/
theorem C1_mismatch_finders_witness :
    ∃ (idxs : List Nat) (wl cl : List Int) (imgs : List (List Int)),
      find_wrong_predictions_cifar [0, 1, 2, 1] [0, 2, 2, 1] = Except.ok (idxs, wl, cl) ∧
      find_wrong_predictions [0, 1, 2, 1] [0, 2, 2, 1] [[10], [11], [12], [13]] =
        Except.ok (idxs, imgs, wl, cl) ∧
      (∀ i, i ∈ idxs ↔ i < ([0, 1, 2, 1] : List Int).length ∧
        nth ([0, 1, 2, 1] : List Int) i 0 ≠ nth ([0, 2, 2, 1] : List Int) i 0) ∧
      List.Sorted (· < ·) idxs ∧
      wl = idxs.map (fun i => nth ([0, 2, 2, 1] : List Int) i 0) ∧
      cl = idxs.map (fun i => nth ([0, 1, 2, 1] : List Int) i 0) :=
  C1_mismatch_finders_characterized.1 [0, 1, 2, 1] [0, 2, 2, 1]
    [[10], [11], [12], [13]] rfl rfl

/-- C5: when the label and prediction vectors are identical, both mismatch
finders return empty collections for every output instead of an error. -/
theorem C5_identical_vectors_empty_outputs :
    ∀ (labels : List Int) (images : List (List Int)),
      find_wrong_predictions_cifar labels labels = Except.ok ([], [], []) ∧
      find_wrong_predictions labels labels images = Except.ok ([], [], [], []) := by
  intro labels images
  have hidx : wrong_idx labels labels = [] := by
    simp [wrong_idx]
  constructor
  · simp [find_wrong_predictions_cifar, hidx, npIndex, exceptMapM]
  · simp [find_wrong_predictions, hidx, npIndex, exceptMapM]

/-- C6: with an aligned image batch, the returned image slice of
`find_wrong_predictions` has the same length as the returned index list and
its entry at each position `k` is `images[idxs[k]]`. -/
theorem C6_image_slice_aligned :
    ∀ (labels predictions : List Int) (images : List (List Int)) (d : List Int),
      labels.length = predictions.length →
      images.length = labels.length →
      ∃ (idxs : List Nat) (imgs : List (List Int)) (wl cl : List Int),
        find_wrong_predictions labels predictions images = Except.ok (idxs, imgs, wl, cl) ∧
        imgs.length = idxs.length ∧
        ∀ k, k < idxs.length → nth imgs k d = nth images (nth idxs k 0) d := by
  intro labels predictions images d hlen hilen
  have hwl := npIndex_wrong_idx labels predictions predictions 0 (Nat.le_of_eq hlen)
  have hcl := npIndex_wrong_idx labels predictions labels 0 (Nat.le_refl _)
  have himg := npIndex_wrong_idx labels predictions images d (Nat.le_of_eq hilen.symm)
  refine ⟨wrong_idx labels predictions,
    (wrong_idx labels predictions).map (fun i => nth images i d),
    (wrong_idx labels predictions).map (fun i => nth predictions i 0),
    (wrong_idx labels predictions).map (fun i => nth labels i 0), ?_, by simp, ?_⟩
  · simp [find_wrong_predictions, hlen, hwl, hcl, himg]
  · intro k hk
    exact nth_map_of_lt (fun i => nth images i d) (wrong_idx labels predictions) k d 0 hk

/-- C6 witness: the C6 guarantee at a concrete aligned batch. -/
theorem C6_image_slice_witness :
    ∃ (idxs : List Nat) (imgs : List (List Int)) (wl cl : List Int),
      find_wrong_predictions [5, 6] [5, 7] [[1, 2], [3, 4]] =
        Except.ok (idxs, imgs, wl, cl) ∧
      imgs.length = idxs.length ∧
      ∀ k, k < idxs.length →
        nth imgs k [] = nth ([[1, 2], [3, 4]] : List (List Int)) (nth idxs k 0) [] :=
  C6_image_slice_aligned [5, 6] [5, 7] [[1, 2], [3, 4]] [] rfl rfl

lemma le_ceil_sqrt_sq (n : Nat) : n ≤ ceil_sqrt n * ceil_sqrt n := by
  unfold ceil_sqrt
  split
  · omega
  · exact Nat.le_of_lt (Nat.lt_succ_sqrt n)

lemma ceil_sqrt_pos (n : Nat) (h : 0 < n) : 0 < ceil_sqrt n := by
  unfold ceil_sqrt
  split
  · exact Nat.sqrt_pos.mpr h
  · omega

lemma ceil_sqrt_perfect (m : Nat) : ceil_sqrt (m * m) = m := by
  unfold ceil_sqrt
  rw [Nat.sqrt_eq]
  simp

lemma le_mul_ceil_div (a b : Nat) (hb : 0 < b) : a ≤ b * ceil_div a b := by
  unfold ceil_div
  have h1 := Nat.div_add_mod (a + b - 1) b
  have h2 : (a + b - 1) % b < b := Nat.mod_lt _ hb
  omega

/-- The figure-level state that `print_confusion_matrix` mutates through
`plt.imshow` / `plt.xticks` / `plt.yticks` / `plt.xlabel`.  The label
fields record the whole call history so that overwriting is observable;
the displayed label is the last entry. -/
structure ConfMatFig where
  image : List (List Nat)
  xticks : List Nat
  yticks : List Nat
  xlabelHistory : List String
  ylabelHistory : List String
deriving Repr, DecidableEq

def emptyFig : ConfMatFig := ⟨[], [], [], [], []⟩

def plt_imshow (s : ConfMatFig) (img : List (List Nat)) : ConfMatFig :=
  { s with image := img }

def plt_xticks (s : ConfMatFig) (t : List Nat) : ConfMatFig :=
  { s with xticks := t }

def plt_yticks (s : ConfMatFig) (t : List Nat) : ConfMatFig :=
  { s with yticks := t }

def plt_xlabel (s : ConfMatFig) (l : String) : ConfMatFig :=
  { s with xlabelHistory := s.xlabelHistory ++ [l] }

def plt_ylabel (s : ConfMatFig) (l : String) : ConfMatFig :=
  { s with ylabelHistory := s.ylabelHistory ++ [l] }

/-- Modelled from the documented behaviour of the external collaborator
`sklearn.metrics.confusion_matrix(y_true, y_pred)` (used as a black box by
the repository): entry `(i, j)` counts the samples with true class
`classes[i]` and predicted class `classes[j]`, where `classes` is the
sorted list of distinct values occurring in `y_true` or `y_pred`.  Note it
depends only on the two vectors, not on any class-count argument. -/
def confusion_matrix (y_true y_pred : List Nat) : List (List Nat) :=
  let classes := List.insertionSort (· ≤ ·) ((y_true ++ y_pred).dedup)
  classes.map (fun t => classes.map (fun p =>
    ((y_true.zip y_pred).filter (fun q => q.1 == t && q.2 == p)).length))

/-- `print_confusion_matrix(labels, predictions, num_classes)`: computes
the confusion matrix from labels and predictions only, shows it, sets the
ticks on both axes to `0 .. num_classes - 1`, and then calls
`plt.xlabel('Predicted')` followed by `plt.xlabel('True')` — the vertical
axis is never labelled. -/
def print_confusion_matrix (labels predictions : List Nat) (num_classes : Nat) :
    ConfMatFig :=
  let conf_mat := confusion_matrix labels predictions
  let s1 := plt_imshow emptyFig conf_mat
  let tick_marks := List.range num_classes
  let s2 := plt_xticks s1 tick_marks
  let s3 := plt_yticks s2 tick_marks
  let s4 := plt_xlabel s3 "Predicted"
  let s5 := plt_xlabel s4 "True"
  s5

/-- C4: the confusion-matrix plotter sets the horizontal-axis label twice,
first to "Predicted" and then to "True", leaves the vertical axis
unlabelled, generates the ticks of both axes as `0 .. num_classes - 1`
from the explicit `num_classes` argument, and computes the displayed
matrix from labels and predictions only. -/
theorem C4_confusion_matrix_axis_quirk :
    ∀ (labels predictions : List Nat) (num_classes : Nat),
      (print_confusion_matrix labels predictions num_classes).xlabelHistory =
        ["Predicted", "True"] ∧
      (print_confusion_matrix labels predictions num_classes).xlabelHistory.getLast? =
        some "True" ∧
      (print_confusion_matrix labels predictions num_classes).ylabelHistory = [] ∧
      (print_confusion_matrix labels predictions num_classes).xticks =
        List.range num_classes ∧
      (print_confusion_matrix labels predictions num_classes).yticks =
        List.range num_classes ∧
      (print_confusion_matrix labels predictions num_classes).image =
        confusion_matrix labels predictions ∧
      (∀ m : Nat, (print_confusion_matrix labels predictions m).image =
        (print_confusion_matrix labels predictions num_classes).image) :=
  fun _ _ _ => ⟨rfl, rfl, rfl, rfl, rfl, rfl, fun _ => rfl⟩

/-- The figure produced by `plot_weights`: a fixed 3x4 grid whose panels
either carry a caption and a reshaped weight image or stay blank. -/
structure WeightsFig where
  n_rows : Nat
  n_cols : Nat
  w_min : Int
  w_max : Int
  panels : List (Option (String × List (List Int)))
deriving Repr, DecidableEq

/-- Column slice `weights[:, i]`; raises when `i` is out of bounds of a
row. -/
def npColumn (w : List (List Int)) (i : Nat) : Except String (List Int) :=
  exceptMapM (fun row => npGet row i) w

/-- The body of the subplot loop of `plot_weights` at panel index `i`:
for `i < 10` show `weights[:, i].reshape(img_shape)` with caption
`"Weights: i"`, otherwise leave the panel blank. -/
def weights_panel (weights : List (List Int)) (img_shape : Nat × Nat) (i : Nat) :
    Except String (Option (String × List (List Int))) :=
  if i < 10 then
    match npColumn weights i with
    | Except.error e => Except.error e
    | Except.ok col =>
      match np_reshape img_shape.1 img_shape.2 col with
      | Except.error e => Except.error e
      | Except.ok image =>
        Except.ok (some ("Weights: " ++ toString i, image))
  else Except.ok none

/-- `plot_weights(weights, img_shape)`: global min/max of the weights give
a common color scale; a fixed 3x4 subplot grid is created and for panel
index `i < 10` (12 subplots, only 10 digits) the column
`weights[:, i]` is reshaped to `img_shape` and shown with the caption
`"Weights: i"`; the remaining two panels stay blank. -/
def plot_weights (weights : List (List Int)) (img_shape : Nat × Nat) :
    Except String WeightsFig :=
  match weights.flatten with
  | [] => Except.error "zero-size array to reduction operation"
  | x :: xs =>
    let w_min := xs.foldl min x
    let w_max := xs.foldl max x
    match exceptMapM (weights_panel weights img_shape) (List.range (3 * 4)) with
    | Except.error e => Except.error e
    | Except.ok panels =>
      Except.ok { n_rows := 3, n_cols := 4, w_min := w_min, w_max := w_max,
                  panels := panels }

lemma exceptMapM_eq_map_of_ok {α β : Type} (f : α → Except String β) (l : List α)
    (bs : List β) (h : exceptMapM f l = Except.ok bs) (d : β) :
    bs = l.map (fun a => exceptGetD (f a) d) := by
  induction l generalizing bs with
  | nil => simp [exceptMapM] at h; simp [← h]
  | cons a as ih =>
    simp only [exceptMapM] at h
    cases hfa : f a with
    | error e => rw [hfa] at h; exact absurd h (by simp)
    | ok b =>
      rw [hfa] at h
      cases hrest : exceptMapM f as with
      | error e => rw [hrest] at h; exact absurd h (by simp)
      | ok cs =>
        rw [hrest] at h
        cases h
        simp [exceptGetD, hfa, ih cs hrest]

lemma nth_range (n k : Nat) (h : k < n) : nth (List.range n) k 0 = k := by
  simp [nth, List.getElem?_range, h]

lemma nth_of_len_le {α : Type} (l : List α) (k : Nat) (d : α) (h : l.length ≤ k) :
    nth l k d = d := by
  simp [nth, List.getElem?_eq_none h]


lemma flatten_replicate_replicate {α : Type} (n m : Nat) (x : α) :
    (List.replicate n (List.replicate m x)).flatten = List.replicate (n * m) x := by
  induction n with
  | zero => simp
  | succ k ih =>
    rw [List.replicate_succ, List.flatten_cons, ih, ← List.replicate_add]
    congr 1
    ring

lemma foldl_self_replicate {α : Type} (f : α → α → α) (x : α) (hf : f x x = x)
    (n : Nat) : List.foldl f x (List.replicate n x) = x := by
  induction n with
  | zero => rfl
  | succ k ih => rw [List.replicate_succ, List.foldl_cons, hf, ih]

lemma get_replicate_of_lt {α : Type} (n i : Nat) (x : α) (h : i < n) :
    (List.replicate n x).get? i = some x := by
  simp [List.get?_eq_getElem?, List.getElem?_replicate, h]

lemma npGet_replicate {α : Type} (n i : Nat) (x : α) (h : i < n) :
    npGet (List.replicate n x) i = Except.ok x := by
  unfold npGet
  rw [get_replicate_of_lt n i x h]

lemma np_reshape_replicate :
    np_reshape 28 28 (List.replicate 784 (0 : Int)) =
      Except.ok (List.replicate 28 (List.replicate 28 0)) := by
  unfold np_reshape
  rw [if_pos (by simp)]
  have h1 : ∀ b ∈ (List.range 28).map (fun i =>
      ((List.replicate 784 (0 : Int)).drop (28 * i)).take 28),
      b = List.replicate 28 (0 : Int) := by
    intro b hb
    obtain ⟨i, hi, rfl⟩ := List.mem_map.mp hb
    have hi28 : i < 28 := List.mem_range.mp hi
    rw [List.drop_replicate, List.take_replicate]
    congr 1
    omega
  have h2 : (List.range 28).map (fun i =>
      ((List.replicate 784 (0 : Int)).drop (28 * i)).take 28) =
      List.replicate 28 (List.replicate 28 (0 : Int)) :=
    List.eq_replicate.mpr ⟨by simp, h1⟩
  rw [h2]

lemma weights_panel_ok_lt (weights : List (List Int)) (img_shape : Nat × Nat)
    (k : Nat) (b : Option (String × List (List Int)))
    (hk : k < 10) (h : weights_panel weights img_shape k = Except.ok b) :
    ∃ image, b = some ("Weights: " ++ toString k, image) := by
  unfold weights_panel at h
  rw [if_pos hk] at h
  split at h
  · exact absurd h (by simp)
  · split at h
    · exact absurd h (by simp)
    · injection h with h2
      exact ⟨_, h2.symm⟩

lemma weights_panel_ge (weights : List (List Int)) (img_shape : Nat × Nat)
    (k : Nat) (hk : 10 ≤ k) : weights_panel weights img_shape k = Except.ok none := by
  unfold weights_panel
  rw [if_neg (by omega)]

lemma plot_weights_ok (weights : List (List Int)) (img_shape : Nat × Nat)
    (fig : WeightsFig) (h : plot_weights weights img_shape = Except.ok fig) :
    fig.n_rows = 3 ∧ fig.n_cols = 4 ∧
    fig.panels = (List.range 12).map (fun k =>
      exceptGetD (weights_panel weights img_shape k) none) ∧
    (∀ k, k < 12 → ∃ b, weights_panel weights img_shape k = Except.ok b) := by
  unfold plot_weights at h
  cases hflat : weights.flatten with
  | nil => rw [hflat] at h; exact absurd h (by simp)
  | cons x xs =>
    rw [hflat] at h
    rw [show (3 : Nat) * 4 = 12 from rfl] at h
    cases hm : exceptMapM (weights_panel weights img_shape) (List.range 12) with
    | error e => rw [hm] at h; exact absurd h (by simp)
    | ok panels =>
      rw [hm] at h
      cases h
      refine ⟨rfl, rfl, ?_, ?_⟩
      · simpa using exceptMapM_eq_map_of_ok _ _ _ hm none
      · intro k hk
        obtain ⟨a, b, ha, hb, hab⟩ := exceptMapM_get _ _ _ hm k (by simpa using hk)
        rw [List.get?_range hk] at ha
        injection ha with ha2
        subst ha2
        exact ⟨b, hab⟩

/-- The figure `plot_weights` produces on a 784x10 all-zero weight matrix
with image shape 28x28. -/
def figC3 : WeightsFig :=
  { n_rows := 3
    n_cols := 4
    w_min := 0
    w_max := 0
    panels := (List.range 12).map (fun i =>
      if i < 10 then
        some ("Weights: " ++ toString i, List.replicate 28 (List.replicate 28 0))
      else none) }

lemma plot_weights_build (weights : List (List Int)) (img_shape : Nat × Nat)
    (x : Int) (xs : List Int) (panels : List (Option (String × List (List Int))))
    (hflat : weights.flatten = x :: xs)
    (hm : exceptMapM (weights_panel weights img_shape) (List.range (3 * 4)) =
      Except.ok panels) :
    plot_weights weights img_shape =
      Except.ok (WeightsFig.mk 3 4 (xs.foldl min x) (xs.foldl max x) panels) := by
  unfold plot_weights
  rw [hflat, hm]

/-- C3: whenever `plot_weights` succeeds it produces a 3x4 grid in which
exactly the first 10 panels carry the captions "Weights: 0" .. "Weights: 9"
— so at most 10 panels are labelled regardless of the unit count — and on
a 784x10 weight matrix it yields exactly those 10 labelled panels plus 2
blank ones. -/
theorem C3_dense_weight_label_cap :
    (∀ (weights : List (List Int)) (img_shape : Nat × Nat) (fig : WeightsFig),
      plot_weights weights img_shape = Except.ok fig →
      fig.n_rows = 3 ∧ fig.n_cols = 4 ∧ fig.panels.length = 12 ∧
      (fig.panels.filter (fun p => p.isSome)).length = 10 ∧
      (∀ k, k < 10 → ∃ image, nth fig.panels k none =
        some ("Weights: " ++ toString k, image)) ∧
      (∀ k, 10 ≤ k → nth fig.panels k none = none)) ∧
    plot_weights (List.replicate 784 (List.replicate 10 0)) (28, 28) =
      Except.ok figC3 := by
  constructor
  · intro weights img_shape fig h
    obtain ⟨h3, h4, hpanels, hsucc⟩ := plot_weights_ok weights img_shape fig h
    refine ⟨h3, h4, ?_, ?_, ?_, ?_⟩
    · rw [hpanels]; simp
    · rw [hpanels, List.filter_map, List.length_map]
      have hcongr : (List.range 12).filter
          ((fun p => p.isSome) ∘ (fun k =>
            exceptGetD (weights_panel weights img_shape k) none)) =
          (List.range 12).filter (fun k => decide (k < 10)) := by
        apply List.filter_congr
        intro k hk
        have hk12 : k < 12 := List.mem_range.mp hk
        by_cases hk10 : k < 10
        · obtain ⟨b, hb⟩ := hsucc k hk12
          obtain ⟨image, himg⟩ := weights_panel_ok_lt weights img_shape k b hk10 hb
          simp [Function.comp, exceptGetD, hb, himg, hk10]
        · simp [Function.comp, exceptGetD,
            weights_panel_ge weights img_shape k (by omega), hk10]
      rw [hcongr]
      decide
    · intro k hk
      obtain ⟨b, hb⟩ := hsucc k (by omega)
      obtain ⟨image, himg⟩ := weights_panel_ok_lt weights img_shape k b hk hb
      refine ⟨image, ?_⟩
      rw [hpanels, nth_map_of_lt _ _ k none 0 (by simpa using (by omega : k < 12)),
        nth_range 12 k (by omega), hb, himg]
      rfl
    · intro k hk
      by_cases hk12 : k < 12
      · rw [hpanels, nth_map_of_lt _ _ k none 0 (by simpa using hk12),
          nth_range 12 k hk12, weights_panel_ge weights img_shape k hk]
        rfl
      · rw [nth_of_len_le]
        rw [hpanels]
        simpa using (by omega : 12 ≤ k)
  · have hflat : (List.replicate 784 (List.replicate 10 (0 : Int))).flatten =
        (0 : Int) :: List.replicate 7839 0 := by
      rw [flatten_replicate_replicate]
      rfl
    have hwp : ∀ i ∈ List.range (3 * 4),
        weights_panel (List.replicate 784 (List.replicate 10 0)) (28, 28) i =
          Except.ok (if i < 10 then
            some ("Weights: " ++ toString i, List.replicate 28 (List.replicate 28 0))
          else none) := by
      intro i hi
      have hi12 : i < 12 := by simpa using List.mem_range.mp hi
      interval_cases i <;> rfl
    have hm := exceptMapM_ok_of _ _ _ hwp
    have hb := plot_weights_build (List.replicate 784 (List.replicate 10 0)) (28, 28)
      0 (List.replicate 7839 0) _ hflat hm
    rw [hb, foldl_self_replicate min (0 : Int) (by simp) 7839,
      foldl_self_replicate max (0 : Int) (by simp) 7839]
    rfl

/-- The figure produced by `plot_conv_weights` / `plot_conv_layer`-style
grid visualizers: a square grid of `num_grids * num_grids` cells, a shared
color scale, and one optional image per cell. -/
structure ConvFig where
  num_grids : Nat
  w_min : Int
  w_max : Int
  panels : List (Option (List (List Int)))
deriving Repr, DecidableEq

/-- `weights.shape[3]` of a rectangular 4-D array
(height x width x channels x filters) given as nested lists. -/
def conv_num_filters (weights : List (List (List (List Int)))) : Nat :=
  (((weights.headD []).headD []).headD []).length

/-- One scalar read `weights[r][c][input_channel][i]` out of a cell of the
4-D kernel. -/
def conv_cell (input_channel i : Nat) (cell : List (List Int)) :
    Except String Int :=
  match cell.get? input_channel with
  | none => Except.error "index out of bounds"
  | some chan =>
    match chan.get? i with
    | none => Except.error "index out of bounds"
    | some v => Except.ok v

/-- The slice `weights[:, :, input_channel, i]`. -/
def conv_slice (weights : List (List (List (List Int)))) (input_channel i : Nat) :
    Except String (List (List Int)) :=
  exceptMapM (fun row =>
    exceptMapM (conv_cell input_channel i) row) weights

/-- The body of the subplot loop of `plot_conv_weights` at grid cell `i`:
show `weights[:, :, input_channel, i]` when `i < num_filters`, otherwise
leave the cell blank. -/
def conv_panel (weights : List (List (List (List Int))))
    (input_channel num_filters i : Nat) :
    Except String (Option (List (List Int))) :=
  if i < num_filters then
    match conv_slice weights input_channel i with
    | Except.error e => Except.error e
    | Except.ok img => Except.ok (some img)
  else Except.ok none

/-- `plot_conv_weights(weights, input_channel=0)`: global min/max of the
weights give a common color scale, `num_filters = weights.shape[3]`,
`num_grids = int(np.ceil(np.sqrt(num_filters)))`, and a
`num_grids x num_grids` subplot grid is filled with the per-filter slices
of the chosen input channel; cells at index `>= num_filters` stay blank.
`plt.subplots(num_grids, num_grids)` rejects a zero-sized grid, and for
`num_grids == 1` it squeezes the axes array to a bare `Axes` object, so
the later `axes.flat` raises an AttributeError. -/
def plot_conv_weights (weights : List (List (List (List Int))))
    (input_channel : Nat := 0) : Except String ConvFig :=
  match weights.flatten.flatten.flatten with
  | [] => Except.error "zero-size array to reduction operation"
  | x :: xs =>
    if ceil_sqrt (conv_num_filters weights) = 0 then
      Except.error "Number of rows must be a positive integer"
    else if ceil_sqrt (conv_num_filters weights) = 1 then
      Except.error "Axes object has no attribute flat"
    else
      match exceptMapM (conv_panel weights input_channel (conv_num_filters weights))
          (List.range (ceil_sqrt (conv_num_filters weights) *
            ceil_sqrt (conv_num_filters weights))) with
      | Except.error e => Except.error e
      | Except.ok panels =>
        Except.ok { num_grids := ceil_sqrt (conv_num_filters weights),
                    w_min := xs.foldl min x, w_max := xs.foldl max x,
                    panels := panels }

/-- The single file written by `save_image_collection`: its path and the
grid it contains.  `hspace`/`wspace` are the inter-panel spacing values
passed to `gridspec.GridSpec`. -/
structure SavedFile where
  path : String
  n_rows : Nat
  n_cols : Nat
  hspace : Int
  wspace : Int
  panels : List (Nat × List (List Int))
deriving Repr, DecidableEq

/-- The body of the drawing loop of `save_image_collection` at cell
`count`: show `images[count, :].reshape((28, 28))`. -/
def save_panel (images : List (List Int)) (count : Nat) :
    Except String (Nat × List (List Int)) :=
  match npGet images count with
  | Except.error e => Except.error e
  | Except.ok img =>
    match np_reshape 28 28 img with
    | Except.error e => Except.error e
    | Except.ok rimg => Except.ok (count, rimg)

/-- `save_image_collection(images, filename)`:
`n_image_rows = int(np.ceil(np.sqrt(dimensions)))`,
`n_image_cols = int(np.ceil(dimensions / n_image_rows))`, a GridSpec with
zero spacing; the loop `zip(grid, range(dimensions))` draws
`min(rows * cols, dimensions)` cells, and a single file named
`filename + '_vis.png'` is written. -/
def save_image_collection (images : List (List Int)) (filename : String) :
    Except String (List SavedFile) :=
  if images.length = 0 then
    Except.error "Number of rows must be a positive integer"
  else
    match exceptMapM (save_panel images)
        (List.range (min (ceil_sqrt images.length *
          ceil_div images.length (ceil_sqrt images.length)) images.length)) with
    | Except.error e => Except.error e
    | Except.ok panels =>
      Except.ok [{ path := filename ++ "_vis.png",
                   n_rows := ceil_sqrt images.length,
                   n_cols := ceil_div images.length (ceil_sqrt images.length),
                   hspace := 0, wspace := 0, panels := panels }]

/-- One bar chart drawn by `ax.bar(...)`. -/
structure BarChart where
  positions : List Nat
  heights : List Int
  colors : List String
deriving Repr, DecidableEq

/-- One image panel of `plot_images`: the displayed image and its
`"True: t, Pred: p"` caption. -/
structure ImagePanel where
  shown : List (List Int)
  xlabel : String
deriving Repr, DecidableEq

/-- The whole `plot_images` figure: one image panel, one probability bar
chart and one logit bar chart per sample row. -/
structure ImagesFig where
  img_panels : List ImagePanel
  prob_panels : List BarChart
  logit_panels : List BarChart
deriving Repr, DecidableEq

/-- `bar_colors = ['b', 'r', 'g', 'm', 'c', 'y', 'k', 'b', 'r', 'g']`. -/
def bar_colors : List String :=
  ["b", "r", "g", "m", "c", "y", "k", "b", "r", "g"]

/-- `ax.bar(xs, heights, color=colors)`: matplotlib broadcasts the height
array against the positions, so a height array of matching length is used
as is, a length-1 height array is broadcast to one bar of that height per
position, and any other length raises a shape mismatch. -/
def ax_bar (xs : List Nat) (heights : List Int) (colors : List String) :
    Except String BarChart :=
  if heights.length = xs.length then
    Except.ok { positions := xs, heights := heights, colors := colors }
  else if heights.length = 1 then
    Except.ok { positions := xs
                heights := List.replicate xs.length (heights.headD 0)
                colors := colors }
  else
    Except.error "shape mismatch: objects cannot be broadcast to a single shape"

/-- The body of the first subplot-column loop of `plot_images` at row `i`:
show `images[i]` (reshaped to `img_shape` when requested) and caption it
with the true and predicted classes. -/
def image_row_panel (images : List (List Int)) (cls_true cls_pred : List Nat)
    (img_shape : Nat × Nat) (reshape : Bool) (i : Nat) :
    Except String ImagePanel :=
  match npGet images i with
  | Except.error e => Except.error e
  | Except.ok img =>
    match (if reshape then np_reshape img_shape.1 img_shape.2 img
           else Except.ok [img]) with
    | Except.error e => Except.error e
    | Except.ok shown =>
      match npGet cls_true i with
      | Except.error e => Except.error e
      | Except.ok t =>
        match npGet cls_pred i with
        | Except.error e => Except.error e
        | Except.ok p =>
          Except.ok { shown := shown,
                      xlabel := "True: " ++ toString t ++ ", Pred: " ++ toString p }

/-- The body of the second and third subplot-column loops of `plot_images`
at row `i`: `subfig.bar(np.arange(10), scores[i], color=bar_colors)`. -/
def score_bar_panel (scores : List (List Int)) (i : Nat) :
    Except String BarChart :=
  match npGet scores i with
  | Except.error e => Except.error e
  | Except.ok heights => ax_bar (List.range 10) heights bar_colors

/-- `plot_images(images, y_pred, logits, cls_true, cls_pred, img_shape,
reshape=True)`: `plt.subplots(images.shape[0], 3)` squeezes the axes array
to one dimension when `images.shape[0] == 1`, so the 2-D indexing
`axes[:, 0]` raises an IndexError there (and matplotlib rejects a zero-row
grid outright); otherwise one image panel and two 10-bar charts are drawn
per sample row. -/
def plot_images (images y_pred logits : List (List Int))
    (cls_true cls_pred : List Nat) (img_shape : Nat × Nat)
    (reshape : Bool := true) : Except String ImagesFig :=
  if images.length = 0 then
    Except.error "Number of rows must be a positive integer"
  else if images.length = 1 then
    Except.error "too many indices for array"
  else
    match exceptMapM (image_row_panel images cls_true cls_pred img_shape reshape)
        (List.range images.length) with
    | Except.error e => Except.error e
    | Except.ok img_panels =>
      match exceptMapM (score_bar_panel y_pred) (List.range images.length) with
      | Except.error e => Except.error e
      | Except.ok prob_panels =>
        match exceptMapM (score_bar_panel logits) (List.range images.length) with
        | Except.error e => Except.error e
        | Except.ok logit_panels =>
          Except.ok { img_panels := img_panels, prob_panels := prob_panels,
                      logit_panels := logit_panels }

/-- The figure produced by `plot_autoencoder_weights`: a fixed 10x10 grid
whose drawn cells carry their index and image. -/
structure AEFig where
  n_grid_rows : Nat
  n_grid_cols : Nat
  panels : List (Nat × List (List Int))
deriving Repr, DecidableEq

/-- numpy transpose of a rectangular 2-D array: row `j` of the result is
column `j` of the input. -/
def np_transpose (m : List (List Int)) : List (List Int) :=
  (List.range (m.headD []).length).map (fun j => m.map (fun row => nth row j 0))

/-- The body of the drawing loop of `plot_autoencoder_weights` at cell
`count`, operating on the transposed matrix:
`weights[count, :].reshape((28, 28))`. -/
def ae_panel (wT : List (List Int)) (count : Nat) :
    Except String (Nat × List (List Int)) :=
  match npGet wT count with
  | Except.error e => Except.error e
  | Except.ok row =>
    match np_reshape 28 28 row with
    | Except.error e => Except.error e
    | Except.ok img => Except.ok (count, img)

/-- `plot_autoencoder_weights(weights)`: rebinds `weights = weights.T`,
reads `dimensions = weights.shape[1]` — for the transposed rectangular
array this is the row count of the original matrix — builds a fixed 10x10
GridSpec and draws `weights[count, :].reshape((28, 28))` for the cells
paired with `range(dimensions)` by `zip`, i.e. for
`count < min(100, dimensions)`. -/
def plot_autoencoder_weights (weights : List (List Int)) :
    Except String AEFig :=
  match exceptMapM (ae_panel (np_transpose weights))
      (List.range (min (10 * 10) weights.length)) with
  | Except.error e => Except.error e
  | Except.ok panels =>
    Except.ok { n_grid_rows := 10, n_grid_cols := 10, panels := panels }

lemma nth_mem_of_lt {α : Type} (l : List α) (k : Nat) (d : α) (h : k < l.length) :
    nth l k d ∈ l := by
  have : nth l k d = l[k] := by simp [nth, List.getElem?_eq_getElem h]
  rw [this]
  exact List.getElem_mem h

lemma npGet_ok {α : Type} (xs : List α) (i : Nat) (v : α)
    (h : npGet xs i = Except.ok v) : xs.get? i = some v := by
  unfold npGet at h
  split at h
  · injection h with h2
    rw [← h2]
    assumption
  · exact absurd h (by simp)

lemma npGet_of_le {α : Type} (xs : List α) (i : Nat) (h : xs.length ≤ i) :
    npGet xs i = Except.error "index out of bounds" := by
  simp [npGet, List.get?_eq_getElem?, List.getElem?_eq_none h]

lemma conv_panel_ok_lt (weights : List (List (List (List Int))))
    (input_channel num_filters k : Nat) (b : Option (List (List Int)))
    (hk : k < num_filters)
    (h : conv_panel weights input_channel num_filters k = Except.ok b) :
    ∃ img, b = some img := by
  unfold conv_panel at h
  rw [if_pos hk] at h
  split at h
  · exact absurd h (by simp)
  · injection h with h2
    exact ⟨_, h2.symm⟩

lemma conv_panel_ge (weights : List (List (List (List Int))))
    (input_channel num_filters k : Nat) (hk : num_filters ≤ k) :
    conv_panel weights input_channel num_filters k = Except.ok none := by
  unfold conv_panel
  rw [if_neg (by omega)]

lemma plot_conv_weights_ok (weights : List (List (List (List Int))))
    (input_channel : Nat) (fig : ConvFig)
    (h : plot_conv_weights weights input_channel = Except.ok fig) :
    fig.num_grids = ceil_sqrt (conv_num_filters weights) ∧
    fig.panels = (List.range (ceil_sqrt (conv_num_filters weights) *
      ceil_sqrt (conv_num_filters weights))).map (fun k =>
        exceptGetD (conv_panel weights input_channel (conv_num_filters weights) k) none) ∧
    (∀ k, k < ceil_sqrt (conv_num_filters weights) *
        ceil_sqrt (conv_num_filters weights) →
      ∃ b, conv_panel weights input_channel (conv_num_filters weights) k =
        Except.ok b) := by
  unfold plot_conv_weights at h
  cases hflat : weights.flatten.flatten.flatten with
  | nil => rw [hflat] at h; exact absurd h (by simp)
  | cons x xs =>
    rw [hflat] at h
    dsimp only at h
    by_cases h0 : ceil_sqrt (conv_num_filters weights) = 0
    · rw [if_pos h0] at h
      exact absurd h (by simp)
    rw [if_neg h0] at h
    by_cases h1 : ceil_sqrt (conv_num_filters weights) = 1
    · rw [if_pos h1] at h
      exact absurd h (by simp)
    rw [if_neg h1] at h
    cases hm : exceptMapM (conv_panel weights input_channel (conv_num_filters weights))
        (List.range (ceil_sqrt (conv_num_filters weights) *
          ceil_sqrt (conv_num_filters weights))) with
    | error e => rw [hm] at h; exact absurd h (by simp)
    | ok panels =>
      rw [hm] at h
      cases h
      refine ⟨rfl, ?_, ?_⟩
      · simpa using exceptMapM_eq_map_of_ok _ _ _ hm none
      · intro k hk
        obtain ⟨a, b, ha, hb, hab⟩ := exceptMapM_get _ _ _ hm k (by simpa using hk)
        rw [List.get?_range hk] at ha
        injection ha with ha2
        subst ha2
        exact ⟨b, hab⟩

/-- The shape of the single `SavedFile` that `save_image_collection`
produces. -/
def saved_file (images : List (List Int)) (filename : String)
    (panels : List (Nat × List (List Int))) : SavedFile :=
  { path := filename ++ "_vis.png"
    n_rows := ceil_sqrt images.length
    n_cols := ceil_div images.length (ceil_sqrt images.length)
    hspace := 0
    wspace := 0
    panels := panels }

lemma save_image_collection_ok (images : List (List Int)) (filename : String)
    (files : List SavedFile)
    (h : save_image_collection images filename = Except.ok files) :
    0 < images.length ∧
    ∃ panels, files = [saved_file images filename panels] := by
  unfold save_image_collection at h
  by_cases h0 : images.length = 0
  · rw [if_pos h0] at h
    exact absurd h (by simp)
  · rw [if_neg h0] at h
    cases hm : exceptMapM (save_panel images)
        (List.range (min (ceil_sqrt images.length *
          ceil_div images.length (ceil_sqrt images.length)) images.length)) with
    | error e => rw [hm] at h; exact absurd h (by simp)
    | ok panels =>
      rw [hm] at h
      cases h
      exact ⟨by omega, panels, rfl⟩

/-- A rectangular all-zero 5x5x3x16 conv kernel, the shape of the C2
scenario. -/
def convExample : List (List (List (List Int))) :=
  List.replicate 5 (List.replicate 5 (List.replicate 3 (List.replicate 16 0)))

/-- A 1x1x3x4 conv kernel whose single pixel holds the values
`10 + filter` on channel 0, `20 + filter` on channel 1 and `30 + filter`
on channel 2; the four panels drawn by the default call show 10..13,
witnessing that input channel 0 is the one sliced by default. -/
def convChanExample : List (List (List (List Int))) :=
  [[[[10, 11, 12, 13], [20, 21, 22, 23], [30, 31, 32, 33]]]]

/-- The figure `plot_conv_weights` produces on `convExample` with the
default input channel: a 4x4 grid with all 16 panels filled. -/
def figC2 : ConvFig :=
  { num_grids := 4
    w_min := 0
    w_max := 0
    panels := List.replicate 16 (some (List.replicate 5 (List.replicate 5 0))) }

lemma plot_conv_weights_build (weights : List (List (List (List Int))))
    (input_channel : Nat) (x : Int) (xs : List Int)
    (panels : List (Option (List (List Int))))
    (hflat : weights.flatten.flatten.flatten = x :: xs)
    (hgrid : 2 ≤ ceil_sqrt (conv_num_filters weights))
    (hm : exceptMapM (conv_panel weights input_channel (conv_num_filters weights))
      (List.range (ceil_sqrt (conv_num_filters weights) *
        ceil_sqrt (conv_num_filters weights))) = Except.ok panels) :
    plot_conv_weights weights input_channel =
      Except.ok (ConvFig.mk (ceil_sqrt (conv_num_filters weights))
        (xs.foldl min x) (xs.foldl max x) panels) := by
  unfold plot_conv_weights
  rw [hflat]
  dsimp only
  rw [if_neg (by omega), if_neg (by omega), hm]

/-- C2: a successful run of `plot_conv_weights` yields a square grid with
`rows = ceil(sqrt(num_filters))` and `rows * cols >= num_filters`, panels
beyond `num_filters` blank; a successful `save_image_collection` likewise
has `rows = ceil(sqrt(count))` and `rows * cols >= count`; the 5x5x3x16
kernel `convExample` yields a 4x4 grid with all 16 panels filled; and on
`convChanExample` (channel values 10.., 20.., 30..) the default call draws
the channel-0 values 10..13, i.e. input channel 0 is sliced by default. -/
theorem C2_grid_sizing :
    (∀ (weights : List (List (List (List Int)))) (input_channel : Nat)
      (fig : ConvFig),
      plot_conv_weights weights input_channel = Except.ok fig →
      fig.num_grids = ceil_sqrt (conv_num_filters weights) ∧
      conv_num_filters weights ≤ fig.num_grids * fig.num_grids ∧
      fig.panels.length = fig.num_grids * fig.num_grids ∧
      (∀ k, k < fig.panels.length →
        ((nth fig.panels k none).isSome ↔ k < conv_num_filters weights))) ∧
    (∀ (images : List (List Int)) (filename : String) (files : List SavedFile)
      (f : SavedFile),
      save_image_collection images filename = Except.ok files → f ∈ files →
      f.n_rows = ceil_sqrt images.length ∧
      images.length ≤ f.n_rows * f.n_cols) ∧
    plot_conv_weights convExample = Except.ok figC2 ∧
    plot_conv_weights convChanExample =
      Except.ok (ConvFig.mk 2 10 33
        [some [[10]], some [[11]], some [[12]], some [[13]]]) := by
  refine ⟨?_, ?_, ?_, ?_⟩
  · intro weights input_channel fig h
    obtain ⟨hng, hpanels, hsucc⟩ := plot_conv_weights_ok weights input_channel fig h
    have hlen : fig.panels.length = ceil_sqrt (conv_num_filters weights) *
        ceil_sqrt (conv_num_filters weights) := by
      rw [hpanels]; simp
    refine ⟨hng, ?_, by rw [hlen, hng], ?_⟩
    · rw [hng]
      exact le_ceil_sqrt_sq _
    · intro k hk
      rw [hlen] at hk
      rw [hpanels, nth_map_of_lt _ _ k none 0 (by simpa using hk),
        nth_range _ k hk]
      constructor
      · intro hsome
        by_contra hknf
        rw [conv_panel_ge weights input_channel _ k (by omega)] at hsome
        simp [exceptGetD] at hsome
      · intro hknf
        obtain ⟨b, hb⟩ := hsucc k hk
        obtain ⟨img, himg⟩ := conv_panel_ok_lt weights input_channel _ k b hknf hb
        rw [hb, himg]
        rfl
  · intro images filename files f h hf
    obtain ⟨hpos, panels, hfiles⟩ := save_image_collection_ok images filename files h
    subst hfiles
    have hf2 : f = saved_file images filename panels := List.mem_singleton.mp hf
    subst hf2
    exact ⟨rfl, le_mul_ceil_div _ _ (ceil_sqrt_pos _ hpos)⟩
  · have hflat : convExample.flatten.flatten.flatten =
        (0 : Int) :: List.replicate 1199 0 := by
      unfold convExample
      rw [flatten_replicate_replicate, flatten_replicate_replicate,
        flatten_replicate_replicate]
      rfl
    have h16 : conv_num_filters convExample = 16 := rfl
    have hc4 : ceil_sqrt 16 = 4 := by simpa using ceil_sqrt_perfect 4
    have hcf : ∀ i, i < 16 →
        conv_cell 0 i (List.replicate 3 (List.replicate 16 (0 : Int))) =
          Except.ok 0 := by
      intro i hi
      interval_cases i <;> rfl
    have hrow : ∀ i, i < 16 →
        exceptMapM (conv_cell 0 i)
          (List.replicate 5 (List.replicate 3 (List.replicate 16 (0 : Int)))) =
          Except.ok (List.replicate 5 0) := by
      intro i hi
      rw [exceptMapM_ok_of _ (fun _ => (0 : Int)) _ (fun cell hc => by
        rw [List.eq_of_mem_replicate hc]; exact hcf i hi), List.map_replicate]
    have hslice : ∀ i, i < 16 →
        conv_slice convExample 0 i =
          Except.ok (List.replicate 5 (List.replicate 5 0)) := by
      intro i hi
      unfold conv_slice convExample
      rw [exceptMapM_ok_of _ (fun _ => List.replicate 5 (0 : Int)) _ (fun row hr => by
        rw [List.eq_of_mem_replicate hr]; exact hrow i hi), List.map_replicate]
    have hpan : ∀ i ∈ List.range (4 * 4),
        conv_panel convExample 0 16 i =
          Except.ok ((fun _ =>
            some (List.replicate 5 (List.replicate 5 (0 : Int)))) i) := by
      intro i hi
      have hi16 : i < 16 := by simpa using List.mem_range.mp hi
      unfold conv_panel
      rw [if_pos hi16, hslice i hi16]
    have hm : exceptMapM (conv_panel convExample 0 (conv_num_filters convExample))
        (List.range (ceil_sqrt (conv_num_filters convExample) *
          ceil_sqrt (conv_num_filters convExample))) = Except.ok figC2.panels := by
      rw [h16, hc4, exceptMapM_ok_of _ _ _ hpan]
      rfl
    have hb := plot_conv_weights_build convExample 0 0 (List.replicate 1199 0)
      figC2.panels hflat (by rw [h16, hc4]; omega) hm
    rw [hb, h16, hc4, foldl_self_replicate min (0 : Int) (by simp) 1199,
      foldl_self_replicate max (0 : Int) (by simp) 1199]
    rfl
  · have hc2 : ceil_sqrt (conv_num_filters convChanExample) = 2 := by
      rw [show conv_num_filters convChanExample = 4 from rfl]
      simpa using ceil_sqrt_perfect 2
    have hm2 : exceptMapM
        (conv_panel convChanExample 0 (conv_num_filters convChanExample))
        (List.range (ceil_sqrt (conv_num_filters convChanExample) *
          ceil_sqrt (conv_num_filters convChanExample))) =
        Except.ok [some [[10]], some [[11]], some [[12]], some [[13]]] := by
      rw [hc2]
      rfl
    have hb2 := plot_conv_weights_build convChanExample 0 10
      [11, 12, 13, 20, 21, 22, 23, 30, 31, 32, 33]
      [some [[10]], some [[11]], some [[12]], some [[13]]] rfl
      (by rw [hc2]) hm2
    rw [hb2, hc2]
    rfl

/-- C2 witness: the general conv-grid guarantee of C2 instantiated at the
concrete 5x5x3x16 kernel. -/
theorem C2_grid_sizing_witness :
    figC2.num_grids = ceil_sqrt (conv_num_filters convExample) ∧
    conv_num_filters convExample ≤ figC2.num_grids * figC2.num_grids ∧
    figC2.panels.length = figC2.num_grids * figC2.num_grids ∧
    (∀ k, k < figC2.panels.length →
      ((nth figC2.panels k none).isSome ↔ k < conv_num_filters convExample)) :=
  C2_grid_sizing.1 convExample 0 figC2 C2_grid_sizing.2.2.1

/-- The file written by `save_image_collection` for 9 flat 784-pixel
images under the path "digits". -/
def figC7 : SavedFile :=
  { path := "digits_vis.png"
    n_rows := 3
    n_cols := 3
    hspace := 0
    wspace := 0
    panels := (List.range 9).map (fun k =>
      (k, List.replicate 28 (List.replicate 28 0))) }

/-- C7: for a nonempty batch of flattened 28x28 images,
`save_image_collection` writes exactly one file, named by appending
"_vis.png" to the given path, with zero inter-panel spacing and one panel
per image; for 9 such images the grid is 3x3 with every image reshaped to
28x28. -/
theorem C7_collection_saver :
    (∀ (images : List (List Int)) (filename : String),
      0 < images.length →
      (∀ img ∈ images, img.length = 784) →
      ∃ f, save_image_collection images filename = Except.ok [f] ∧
        f.path = filename ++ "_vis.png" ∧ f.hspace = 0 ∧ f.wspace = 0 ∧
        f.n_rows = ceil_sqrt images.length ∧
        f.n_cols = ceil_div images.length (ceil_sqrt images.length) ∧
        f.panels.length = images.length) ∧
    save_image_collection (List.replicate 9 (List.replicate 784 0)) "digits" =
      Except.ok [figC7] := by
  constructor
  · intro images filename hpos hlen
    have hrows : 0 < ceil_sqrt images.length := ceil_sqrt_pos _ hpos
    have hmin : min (ceil_sqrt images.length *
        ceil_div images.length (ceil_sqrt images.length)) images.length =
        images.length :=
      Nat.min_eq_right (le_mul_ceil_div _ _ hrows)
    have hsp : ∀ count ∈ List.range images.length,
        ∃ b, save_panel images count = Except.ok b := by
      intro count hc
      have hclt : count < images.length := List.mem_range.mp hc
      have himg := npGet_of_lt images ([] : List Int) count hclt
      have hl : (nth images count []).length = 28 * 28 := by
        rw [hlen _ (nth_mem_of_lt images count [] hclt)]
      refine ⟨(count, (List.range 28).map (fun i =>
        ((nth images count []).drop (28 * i)).take 28)), ?_⟩
      simp [save_panel, himg, np_reshape, hl]
    obtain ⟨panels, hm⟩ := exceptMapM_ok_of_forall _ _ hsp
    refine ⟨saved_file images filename panels, ?_, rfl, rfl, rfl, rfl, rfl, ?_⟩
    · unfold save_image_collection
      rw [if_neg (by omega), hmin, hm]
      rfl
    · have hplen := exceptMapM_length _ _ _ hm
      simpa [saved_file] using hplen
  · unfold save_image_collection
    rw [show (List.replicate 9 (List.replicate 784 (0 : Int))).length = 9 from rfl,
      show ceil_sqrt 9 = 3 from by simpa using ceil_sqrt_perfect 3]
    rfl

/-- C7 witness: the general C7 guarantee instantiated at the 9-image
batch of the claim. -/
theorem C7_collection_saver_witness :
    ∃ f, save_image_collection (List.replicate 9 (List.replicate 784 0)) "digits" =
        Except.ok [f] ∧
      f.path = "digits" ++ "_vis.png" ∧ f.hspace = 0 ∧ f.wspace = 0 ∧
      f.n_rows = ceil_sqrt (List.replicate 9 (List.replicate 784 (0 : Int))).length ∧
      f.n_cols = ceil_div (List.replicate 9 (List.replicate 784 (0 : Int))).length
        (ceil_sqrt (List.replicate 9 (List.replicate 784 (0 : Int))).length) ∧
      f.panels.length = (List.replicate 9 (List.replicate 784 (0 : Int))).length :=
  C7_collection_saver.1 (List.replicate 9 (List.replicate 784 0)) "digits"
    (by simp) (fun img h => by rw [List.eq_of_mem_replicate h]; simp)

/-- C8: an image batch with exactly one sample makes `plot_images` raise:
`plt.subplots(1, 3)` returns a one-dimensional axes array, so the 2-D
indexing `axes[:, 0]` is invalid and no row is rendered. -/
theorem C8_single_sample_raises :
    ∀ (images y_pred logits : List (List Int)) (cls_true cls_pred : List Nat)
      (img_shape : Nat × Nat) (reshape : Bool),
      images.length = 1 →
      plot_images images y_pred logits cls_true cls_pred img_shape reshape =
        Except.error "too many indices for array" := by
  intro images y_pred logits cls_true cls_pred img_shape r h1
  unfold plot_images
  rw [if_neg (by omega), if_pos h1]

/-- C8 witness: the single-sample error at a concrete batch. -/
theorem C8_single_sample_witness :
    plot_images [[0]] [[0]] [[0]] [0] [0] (1, 1) true =
      Except.error "too many indices for array" :=
  C8_single_sample_raises [[0]] [[0]] [[0]] [0] [0] (1, 1) true rfl

lemma score_bar_panel_ok (scores : List (List Int)) (i : Nat) (b : BarChart)
    (h : score_bar_panel scores i = Except.ok b) :
    b.positions = List.range 10 ∧ b.colors = bar_colors ∧
    b.heights.length = 10 ∧
    ((nth scores i []).length = 10 ∨ (nth scores i []).length = 1) := by
  unfold score_bar_panel at h
  split at h
  · exact absurd h (by simp)
  · next heights heq =>
    have hg := npGet_ok _ _ _ heq
    have hnth : nth scores i [] = heights := by
      unfold nth
      rw [hg]
      rfl
    unfold ax_bar at h
    split at h
    · next hlen =>
      injection h with h2
      rw [← h2]
      exact ⟨rfl, rfl, by simpa using hlen,
        Or.inl (by rw [hnth]; simpa using hlen)⟩
    · split at h
      · next hlen1 =>
        injection h with h2
        rw [← h2]
        exact ⟨rfl, rfl, by simp, Or.inr (by rw [hnth]; exact hlen1)⟩
      · exact absurd h (by simp)

/-- C9 counterexample: `plot_images` succeeds on a batch whose
probability vectors have length 1 rather than 10 — matplotlib broadcasts
the single height across the 10 bar positions — refuting the claim that
the function only succeeds when every per-sample score vector has exactly
10 classes. -/
theorem C9_broadcast_counterexample :
    plot_images [[0], [0]] [[5], [5]]
      [List.replicate 10 0, List.replicate 10 0] [0, 0] [0, 0] (1, 1) true =
      Except.ok (ImagesFig.mk
        [ImagePanel.mk [[0]] "True: 0, Pred: 0",
          ImagePanel.mk [[0]] "True: 0, Pred: 0"]
        [BarChart.mk (List.range 10) (List.replicate 10 5) bar_colors,
          BarChart.mk (List.range 10) (List.replicate 10 5) bar_colors]
        [BarChart.mk (List.range 10) (List.replicate 10 0) bar_colors,
          BarChart.mk (List.range 10) (List.replicate 10 0) bar_colors]) := rfl

/-- C9 (amended): whenever `plot_images` succeeds, every probability panel
and every logit panel is a bar chart with exactly 10 bars at positions
0..9 in the fixed 10-color palette, there is one such panel per sample
row, and every per-sample probability and logit vector necessarily has
length 10 or length 1 — a length-1 vector is broadcast by the bar call to
10 equal bars, while any other mismatched length fails with a shape
mismatch. -/
theorem C9_ten_bars_per_row :
    ∀ (images y_pred logits : List (List Int)) (cls_true cls_pred : List Nat)
      (img_shape : Nat × Nat) (reshape : Bool) (fig : ImagesFig),
      plot_images images y_pred logits cls_true cls_pred img_shape reshape =
        Except.ok fig →
      (∀ b ∈ fig.prob_panels ++ fig.logit_panels,
        b.positions = List.range 10 ∧ b.colors = bar_colors ∧
        b.heights.length = 10) ∧
      fig.prob_panels.length = images.length ∧
      fig.logit_panels.length = images.length ∧
      (∀ i, i < images.length →
        ((nth y_pred i []).length = 10 ∨ (nth y_pred i []).length = 1) ∧
        ((nth logits i []).length = 10 ∨ (nth logits i []).length = 1)) := by
  intro images y_pred logits cls_true cls_pred img_shape r fig h
  unfold plot_images at h
  by_cases h0 : images.length = 0
  · rw [if_pos h0] at h
    exact absurd h (by simp)
  rw [if_neg h0] at h
  by_cases h1 : images.length = 1
  · rw [if_pos h1] at h
    exact absurd h (by simp)
  rw [if_neg h1] at h
  cases hm1 : exceptMapM (image_row_panel images cls_true cls_pred img_shape r)
      (List.range images.length) with
  | error e => rw [hm1] at h; exact absurd h (by simp)
  | ok imgp =>
    rw [hm1] at h
    cases hm2 : exceptMapM (score_bar_panel y_pred) (List.range images.length) with
    | error e => rw [hm2] at h; exact absurd h (by simp)
    | ok probp =>
      rw [hm2] at h
      cases hm3 : exceptMapM (score_bar_panel logits) (List.range images.length) with
      | error e => rw [hm3] at h; exact absurd h (by simp)
      | ok logitp =>
        rw [hm3] at h
        cases h
        refine ⟨?_, ?_, ?_, ?_⟩
        · intro b hb
          rcases List.mem_append.mp hb with hbp | hbl
          · obtain ⟨a, ha, hab⟩ := exceptMapM_mem _ _ _ hm2 b hbp
            obtain ⟨hp, hc, hh, hget⟩ := score_bar_panel_ok y_pred a b hab
            exact ⟨hp, hc, hh⟩
          · obtain ⟨a, ha, hab⟩ := exceptMapM_mem _ _ _ hm3 b hbl
            obtain ⟨hp, hc, hh, hget⟩ := score_bar_panel_ok logits a b hab
            exact ⟨hp, hc, hh⟩
        · simpa using exceptMapM_length _ _ _ hm2
        · simpa using exceptMapM_length _ _ _ hm3
        · intro i hi
          constructor
          · obtain ⟨a, b, ha, hb, hab⟩ :=
              exceptMapM_get _ _ _ hm2 i (by simpa using hi)
            rw [List.get?_range hi] at ha
            injection ha with ha2
            subst ha2
            obtain ⟨hp, hc, hh, hlen⟩ := score_bar_panel_ok y_pred i b hab
            exact hlen
          · obtain ⟨a, b, ha, hb, hab⟩ :=
              exceptMapM_get _ _ _ hm3 i (by simpa using hi)
            rw [List.get?_range hi] at ha
            injection ha with ha2
            subst ha2
            obtain ⟨hp, hc, hh, hlen⟩ := score_bar_panel_ok logits i b hab
            exact hlen

/-- The figure `plot_images` produces on a concrete 2-sample batch with
10-class score vectors. -/
def figC9 : ImagesFig :=
  { img_panels := List.replicate 2 { shown := [[0]], xlabel := "True: 0, Pred: 0" }
    prob_panels := List.replicate 2
      { positions := List.range 10, heights := List.replicate 10 0,
        colors := bar_colors }
    logit_panels := List.replicate 2
      { positions := List.range 10, heights := List.replicate 10 0,
        colors := bar_colors } }

/-- C9 witness: the C9 guarantee at a concrete successful 2-sample run. -/
theorem C9_ten_bars_witness :
    (∀ b ∈ figC9.prob_panels ++ figC9.logit_panels,
      b.positions = List.range 10 ∧ b.colors = bar_colors ∧
      b.heights.length = 10) ∧
    figC9.prob_panels.length = ([[0], [0]] : List (List Int)).length ∧
    figC9.logit_panels.length = ([[0], [0]] : List (List Int)).length ∧
    (∀ i, i < ([[0], [0]] : List (List Int)).length →
      ((nth [List.replicate 10 (0 : Int), List.replicate 10 0] i []).length = 10 ∨
        (nth [List.replicate 10 (0 : Int), List.replicate 10 0] i []).length = 1) ∧
      ((nth [List.replicate 10 (0 : Int), List.replicate 10 0] i []).length = 10 ∨
        (nth [List.replicate 10 (0 : Int), List.replicate 10 0] i []).length = 1)) :=
  C9_ten_bars_per_row [[0], [0]] [List.replicate 10 0, List.replicate 10 0]
    [List.replicate 10 0, List.replicate 10 0] [0, 0] [0, 0] (1, 1) true figC9 rfl

lemma np_transpose_get (m : List (List Int)) (j : Nat)
    (hj : j < (m.headD []).length) :
    (np_transpose m).get? j = some (m.map (fun row => nth row j 0)) := by
  unfold np_transpose
  rw [List.get?_map, List.get?_range hj]
  rfl

/-- The figure `plot_autoencoder_weights` produces on a 784-row matrix
with at least 100 columns: the first 100 unit columns, each reshaped to
28x28. -/
def ae_fig (weights : List (List Int)) : AEFig :=
  { n_grid_rows := 10
    n_grid_cols := 10
    panels := (List.range 100).map (fun count =>
      (count, (List.range 28).map (fun i =>
        ((weights.map (fun row => nth row count 0)).drop (28 * i)).take 28))) }

/-- C10 counterexample: a 784x1 weight matrix (a single unit, fewer than
100) makes `plot_autoencoder_weights` raise an IndexError at the second
grid cell instead of leaving the remaining 99 cells untouched. -/
theorem C10_few_units_raises :
    plot_autoencoder_weights (List.replicate 784 [0]) =
      Except.error "index out of bounds" := rfl

/-- C10 (amended): `plot_autoencoder_weights` pairs the 100 cells of its
fixed 10x10 grid with unit indices, so for a 784-row weight matrix with
more than 100 units (columns) exactly the first 100 units are drawn and
the ones beyond index 99 are silently omitted without error; but for
fewer than 100 units it raises an IndexError when the loop reaches the
unit count, rather than leaving the remaining grid cells untouched. -/
theorem C10_autoencoder_truncation :
    ∀ (weights : List (List Int)) (u : Nat),
      (∀ row ∈ weights, row.length = u) →
      weights.length = 784 →
      (100 ≤ u →
        ∃ fig, plot_autoencoder_weights weights = Except.ok fig ∧
          fig.n_grid_rows = 10 ∧ fig.n_grid_cols = 10 ∧
          fig.panels.length = 100 ∧
          fig.panels.map Prod.fst = List.range 100) ∧
      (u < 100 →
        plot_autoencoder_weights weights =
          Except.error "index out of bounds") := by
  intro weights u hrow h784
  have hhead : (weights.headD []).length = u := by
    cases weights with
    | nil => simp at h784
    | cons r rs => exact hrow r (by simp)
  have hTlen : (np_transpose weights).length = u := by
    unfold np_transpose
    rw [List.length_map, List.length_range, hhead]
  have hmin : min (10 * 10) weights.length = 100 := by omega
  have hpanel_ok : ∀ count, count < u →
      ae_panel (np_transpose weights) count =
        Except.ok (count, (List.range 28).map (fun i =>
          ((weights.map (fun row => nth row count 0)).drop (28 * i)).take 28)) := by
    intro count hcount
    have hg : npGet (np_transpose weights) count =
        Except.ok (weights.map (fun row => nth row count 0)) := by
      unfold npGet
      rw [np_transpose_get weights count (by rw [hhead]; exact hcount)]
    have hlen2 : (weights.map (fun row => nth row count 0)).length = 28 * 28 := by
      simp [h784]
    simp [ae_panel, hg, np_reshape, hlen2]
  constructor
  · intro hu
    have hall : ∀ a ∈ List.range 100,
        ae_panel (np_transpose weights) a =
          Except.ok ((fun count => (count, (List.range 28).map (fun i =>
            ((weights.map (fun row => nth row count 0)).drop (28 * i)).take 28))) a) :=
      fun a ha => hpanel_ok a (by have := List.mem_range.mp ha; omega)
    have hm := exceptMapM_ok_of _ _ _ hall
    refine ⟨ae_fig weights, ?_, rfl, rfl, ?_, ?_⟩
    · unfold plot_autoencoder_weights
      rw [hmin, hm]
      rfl
    · simp [ae_fig]
    · simp [ae_fig, List.map_map, Function.comp_def]
  · intro hu
    have he : ae_panel (np_transpose weights) u =
        Except.error "index out of bounds" := by
      unfold ae_panel
      rw [npGet_of_le _ _ (by rw [hTlen])]
    have hprev : ∀ j b, j < u → (List.range 100).get? j = some b →
        ∃ c, ae_panel (np_transpose weights) b = Except.ok c := by
      intro j b hj hjb
      rw [List.get?_range (by omega : j < 100)] at hjb
      injection hjb with hjb2
      subst hjb2
      exact ⟨_, hpanel_ok j hj⟩
    have herr := exceptMapM_eq_error (ae_panel (np_transpose weights))
      (List.range 100) u u "index out of bounds"
      (List.get?_range (by omega)) he hprev
    unfold plot_autoencoder_weights
    rw [hmin, herr]

/-- C10 witness: the amended truncation guarantee at a concrete 784x101
matrix. -/
theorem C10_autoencoder_witness :
    ∃ fig, plot_autoencoder_weights (List.replicate 784 (List.replicate 101 0)) =
        Except.ok fig ∧
      fig.n_grid_rows = 10 ∧ fig.n_grid_cols = 10 ∧
      fig.panels.length = 100 ∧ fig.panels.map Prod.fst = List.range 100 :=
  (C10_autoencoder_truncation (List.replicate 784 (List.replicate 101 0)) 101
    (fun row hrow => by rw [List.eq_of_mem_replicate hrow]; simp)
    (by simp)).1 (by omega)

/-- C3 witness: the general C3 guarantee instantiated at the concrete
784x10 weight matrix, with the success hypothesis discharged by the
concrete evaluation. -/
theorem C3_dense_weight_label_witness :
    figC3.n_rows = 3 ∧ figC3.n_cols = 4 ∧ figC3.panels.length = 12 ∧
    (figC3.panels.filter (fun p => p.isSome)).length = 10 ∧
    (∀ k, k < 10 → ∃ image, nth figC3.panels k none =
      some ("Weights: " ++ toString k, image)) ∧
    (∀ k, 10 ≤ k → nth figC3.panels k none = none) :=
  C3_dense_weight_label_cap.1 (List.replicate 784 (List.replicate 10 0)) (28, 28)
    figC3 C3_dense_weight_label_cap.2
